import Mathlib

/-!
Verification of the trivia API's algorithmic core (backend/flaskr/__init__.py):
the paginator (`paginate_models`), the quiz selector (the `play` handler),
and the request handlers the claims touch (`get_all_questions`,
`add_new_question`, `search_for_question`, `questions_based_on_category`).

Python machine semantics that matter here are embedded explicitly:
list slicing with negative indices (`pySlice`), `random.randint`'s inclusive
bounds (`randintRange`), `list.count`'s mandatory argument (`pyListCountCall`),
and the Flask error boundary (uncaught Python exceptions become a raw 500
without the JSON envelope; `abort(code)` reaches a registered error handler).
-/

/-- A Question record (models.Question): id, question text, answer text,
category reference, difficulty. -/
structure Question where
  id : Nat
  question : String
  answer : String
  category : Nat
  difficulty : Nat
deriving DecidableEq, Repr

/-- A Category record (models.Category): id and display label. -/
structure Category where
  id : Nat
  type : String
deriving DecidableEq, Repr

/-- The externally visible field set produced by `Question.format()`. -/
structure FormattedQuestion where
  id : Nat
  question : String
  answer : String
  category : Nat
  difficulty : Nat
deriving DecidableEq, Repr

/-- `Question.format()`: renders the record into its external field set. -/
def Question.format (q : Question) : FormattedQuestion :=
  ⟨q.id, q.question, q.answer, q.category, q.difficulty⟩

/-- Normalise one Python slice endpoint for a list of length `n`:
a negative index counts from the end (clamped below at 0), a non-negative
index is clamped above at `n`. -/
def pySliceIndex (n : Nat) (i : Int) : Nat :=
  if i < 0 then (max 0 (i + n)).toNat else min i.toNat n

/-- Python list slice `l[s:e]` (step 1), with full negative-index semantics. -/
def pySlice (l : List α) (s e : Int) : List α :=
  let n := l.length
  let s' := pySliceIndex n s
  let e' := pySliceIndex n e
  (l.drop s').take (e' - s')

/-- `paginate_models(request, selection)` (lines 56-67): reads `page` from the
query string (default 1), formats every record, and returns the slice
`models[(page-1)*10 : (page-1)*10 + 10]`. The page size is the literal 10.
The formatting method call is passed as the function `fmt`. -/
def paginate_models (fmt : α → β) (page : Int) (selection : List α) : List β :=
  let start := (page - 1) * 10
  let models := selection.map fmt
  pySlice models start (start + 10)

example : paginate_models id 3 (List.range' 1 25) = [21, 22, 23, 24, 25] := by decide
example : paginate_models id 0 [1, 2, 3] = ([] : List Nat) := by decide
example : paginate_models id (-1) (List.range' 1 25) = List.range' 6 10 := by decide

deriving instance DecidableEq for Except

/-- How a handler terminates abnormally: `abort(code)` raises an
HTTPException carrying `code`; any other Python exception (KeyError,
TypeError, IndexError, ...) is `pyExc`. -/
inductive HandlerExc
  | httpAbort (code : Nat)
  | pyExc
deriving DecidableEq, Repr

/-- What the HTTP client observes after Flask's error boundary. -/
inductive AppResult (α : Type)
  | ok (a : α)
  | errorEnvelope (code : Nat)
  | internalFault
deriving DecidableEq, Repr

/-- Flask's boundary for this app: error handlers are registered for
400/404/405/422 and produce the uniform JSON envelope; an uncaught Python
exception (no 500 handler is registered) surfaces as a raw internal
server error without the envelope. -/
def runHandler : Except HandlerExc α → AppResult α
  | .ok a => .ok a
  | .error (.httpAbort c) =>
      if c == 400 || c == 404 || c == 405 || c == 422 then .errorEnvelope c
      else .internalFault
  | .error .pyExc => .internalFault

/-- The Record Store as the quiz handler sees it: either the full ordered
question table, or a persistence-layer fault (the query raises). -/
inductive Store
  | ok (allQ : List Question)
  | fault
deriving DecidableEq, Repr

/-- The candidate-set computation of `play` (lines 293-306), including the
inverted truthiness branches of the source:
with falsy `previous_questions`, the code evaluates `category['id']` exactly
when `category` is falsy (a TypeError, `.error ()`), and with a truthy
`category` it runs `Question.query.all()` with no category filter at all;
with non-empty `previous_questions` it filters by `category['id']` when the
category is truthy and always excludes ids in `previous_questions`. -/
def playCandidates (allQ : List Question) (previous : List Nat)
    (category : Option Nat) : Except Unit (List Question) :=
  if previous.isEmpty then
    match category with
    | none => .error ()
    | some _ => .ok allQ
  else
    match category with
    | some c =>
        .ok ((allQ.filter (fun q => q.category == c)).filter
          (fun q => !(previous.contains q.id)))
    | none => .ok (allQ.filter (fun q => !(previous.contains q.id)))

/-- The values Python's `randint(a, b)` can return: both bounds inclusive. -/
def randintRange (a b : Nat) : List Nat :=
  (List.range (b + 1)).filter (fun n => a ≤ n)

/-- The `/quiz` POST handler `play` (lines 282-320), with the random draw
made explicit as the parameter `r` (the source draws
`r = randint(0, len(formatted_question))`, both bounds inclusive).
The whole body sits in `try ... except Exception: abort(404)`, so the
TypeError from the falsy-category branch, the persistence fault, the
`abort(404)` raised on an empty candidate set, and the IndexError from an
out-of-range `r` all end in `abort(404)`. -/
def play (st : Store) (previous : List Nat) (category : Option Nat)
    (r : Nat) : Except HandlerExc FormattedQuestion :=
  match st with
  | .fault => .error (.httpAbort 404)
  | .ok allQ =>
    match playCandidates allQ previous category with
    | .error _ => .error (.httpAbort 404)
    | .ok questions =>
      let formatted := questions.map Question.format
      if formatted.length == 0 then .error (.httpAbort 404)
      else
        match formatted.get? r with
        | some q => .ok q
        | none => .error (.httpAbort 404)

/-- A call to Python's `list.count`, which requires exactly one argument:
`l.count(x)` returns the number of occurrences of `x`; calling it with any
other number of arguments raises TypeError. -/
def pyListCountCall (l : List Question) (args : List Question) :
    Except HandlerExc Nat :=
  match args with
  | [x] => .ok (l.count x)
  | _ => .error .pyExc

/-- Response payload of GET `/questions`. -/
structure GetQuestionsResp where
  questions : List FormattedQuestion
  questionsCount : Nat
deriving DecidableEq, Repr

/-- The GET `/questions` handler `get_all_questions` (lines 110-126).
`allQ` is `Question.query.order_by(Question.id).all()` (the `is None` check
on line 117 can never fire: `.all()` returns a list). The count field is
computed by `Question.query.all().count()` — a zero-argument call to
`list.count` — evaluated while building the response. -/
def get_all_questions (allQ : List Question) (page : Int) :
    Except HandlerExc GetQuestionsResp :=
  let questions_list := paginate_models Question.format page allQ
  match pyListCountCall allQ [] with
  | .error e => .error e
  | .ok n => .ok ⟨questions_list, n⟩

/-- The JSON payload of a POST `/questions` request; `none` models a
missing key, which `data['key']` turns into a KeyError. -/
structure NewQuestionData where
  question : Option String
  answer : Option String
  category : Option Nat
  difficulty : Option Nat
deriving DecidableEq, Repr

/-- `data['key']`: a missing key raises KeyError, uncaught in this handler. -/
def dictGet (v : Option α) : Except HandlerExc α :=
  match v with
  | some a => .ok a
  | none => .error .pyExc

/-- Response payload of POST `/questions`. -/
structure AddQuestionResp where
  created : Nat
  questions : List FormattedQuestion
  total_questions : Nat
deriving DecidableEq, Repr

/-- The POST `/questions` handler `add_new_question` (lines 164-190).
The four `data[...]` accesses happen before any try block, so a missing
field propagates as a raw KeyError. `insert` is the Record Store insert;
when it raises, the handler's `except Exception.args:` clause names a
non-exception object, so matching it raises its own TypeError — either
way the fault stays uncaught (`.error .pyExc`). On success the new table
is the old one with the new record appended, and is paginated. -/
def add_new_question (data : NewQuestionData) (allQ : List Question)
    (newId : Nat) (insertOk : Bool) (page : Int) :
    Except HandlerExc AddQuestionResp :=
  match dictGet data.question with
  | .error e => .error e
  | .ok qtext =>
  match dictGet data.answer with
  | .error e => .error e
  | .ok atext =>
  match dictGet data.category with
  | .error e => .error e
  | .ok cat =>
  match dictGet data.difficulty with
  | .error e => .error e
  | .ok diff =>
  if insertOk then
    let newQ : Question := ⟨newId, qtext, atext, cat, diff⟩
    let questions := allQ ++ [newQ]
    .ok ⟨newId, paginate_models Question.format page questions, questions.length⟩
  else .error .pyExc

/-- Does `pat` occur as a contiguous run inside `s` (as character lists)? -/
def charsHasInfix (pat : List Char) : List Char → Bool
  | [] => pat.isEmpty
  | c :: rest => pat.isPrefixOf (c :: rest) || charsHasInfix pat rest

/-- ASCII lower-casing of one character (the case folding SQL `ilike`
applies to the ASCII question texts of this app). -/
def asciiLower (c : Char) : Char :=
  if 'A' ≤ c && c ≤ 'Z' then Char.ofNat (c.toNat + 32) else c

/-- SQL `ilike '%term%'`: case-insensitive substring match. -/
def ilikeContains (s term : String) : Bool :=
  charsHasInfix (term.toList.map asciiLower) (s.toList.map asciiLower)

/-- Response payload of POST `/questions/search`. -/
structure SearchResp where
  questions : List FormattedQuestion
  total_questions : Nat
  current_category : List String
deriving DecidableEq, Repr

/-- The POST `/questions/search` handler `search_for_question`
(lines 203-236). Matching questions are those whose text contains the
search term case-insensitively; zero matches abort 404, as does an empty
category table. The `return jsonify(...)` sits inside the `for category`
loop, so the response is built right after the first label is appended:
`current_category` carries only the first category's type. (With the empty
table already aborted, the loop always runs at least once; the unreachable
empty case models the `None` return Flask would reject.) -/
def search_for_question (allQ : List Question) (allCats : List Category)
    (term : String) : Except HandlerExc SearchResp :=
  let questions := allQ.filter (fun q => ilikeContains q.question term)
  let questions_count := questions.length
  if questions_count == 0 then .error (.httpAbort 404)
  else if allCats.length == 0 then .error (.httpAbort 404)
  else
    match allCats with
    | [] => .error .pyExc
    | c :: _ =>
        .ok ⟨questions.map Question.format, questions_count, [c.type]⟩

/-- Response payload of GET `/categories/{id}/questions`. -/
structure CategoryQuestionsResp where
  questions : List FormattedQuestion
  total_questions : Nat
  current_category : Nat
deriving DecidableEq, Repr

/-- The GET `/categories/{id}/questions` handler
`questions_based_on_category` (lines 247-267): filters the table by
category (the `is None` check can never fire on a list), paginates, and
aborts 404 when the resulting page is empty. -/
def questions_based_on_category (allQ : List Question) (category_id : Nat)
    (page : Int) : Except HandlerExc CategoryQuestionsResp :=
  let questions := allQ.filter (fun q => q.category == category_id)
  let paginated_questions := paginate_models Question.format page questions
  if paginated_questions.length == 0 then .error (.httpAbort 404)
  else .ok ⟨paginated_questions, questions.length, category_id⟩

/-- Example question Q1, category 1. -/
def exQ1 : Question := ⟨1, "Q1", "A1", 1, 1⟩

/-- Example question Q2, category 2. -/
def exQ2 : Question := ⟨2, "Q2", "A2", 2, 1⟩

/-- Example question Q3, category 1. -/
def exQ3 : Question := ⟨3, "Q3", "A3", 1, 1⟩

/-- Example question whose text contains "Title". -/
def exQT : Question := ⟨4, "Title of X", "A4", 1, 2⟩

/-- Example category with label Science. -/
def exCatSci : Category := ⟨1, "Science"⟩

/-- Example category with label Art. -/
def exCatArt : Category := ⟨2, "Art"⟩

-- scratch checks
example : play (.ok [exQ1, exQ2]) [] (some 2) 0 = .ok exQ1.format := by decide
example : exQ1.format.category = 1 := by decide
example : (1 : Nat) ∈ randintRange 0 1 := by decide
example : play (.ok [exQ1, exQ2]) [2] none 1 = .error (.httpAbort 404) := by decide
example : play (.ok [exQ1, exQ2]) [2] none 0 = .ok exQ1.format := by decide
example : play (.ok [exQ1, exQ2, exQ3]) [1, 3] (some 1) 0 = .error (.httpAbort 404) := by decide
example : play .fault [1, 3] (some 1) 0 = .error (.httpAbort 404) := by decide
example : runHandler (get_all_questions [exQ1] 1) = .internalFault := by decide
example :
    runHandler (add_new_question ⟨some "q", none, some 1, some 1⟩ [] 5 true 1)
      = .internalFault := by decide
example :
    search_for_question [exQT] [exCatSci, exCatArt] "title"
      = .ok ⟨[exQT.format], 1, ["Science"]⟩ := by decide
example :
    questions_based_on_category [exQ1, exQ3] 1 2 = .error (.httpAbort 404) := by decide

/-! ### Helper lemmas (shared) -/

/-- A Python slice `l[s:s+10]` with non-negative start is plain drop/take. -/
theorem pySlice_nonneg (l : List β) (s : Int) (hs : 0 ≤ s) :
    pySlice l s (s + 10) = (l.drop s.toNat).take 10 := by
  unfold pySlice pySliceIndex
  have h1 : ¬ s < 0 := not_lt.mpr hs
  have h2 : ¬ s + 10 < 0 := by omega
  simp only [if_neg h1, if_neg h2]
  have h3 : (s + 10).toNat = s.toNat + 10 := by omega
  rw [h3]
  generalize s.toNat = k
  rcases le_or_lt k l.length with hk | hk
  · rw [min_eq_left hk]
    rcases le_or_lt (k + 10) l.length with h10 | h10
    · rw [min_eq_left h10, Nat.add_sub_cancel_left]
    · rw [min_eq_right h10.le]
      have hdl : (l.drop k).length = l.length - k := List.length_drop k l
      rw [← hdl, List.take_length]
      have hle : (l.drop k).length ≤ 10 := by omega
      exact (List.take_of_length_le hle).symm
  · rw [min_eq_right hk.le, List.drop_length, List.drop_eq_nil_of_le hk.le]
    simp

/-- For `page ≥ 1`, `paginate_models` is drop-then-take on the formatted list. -/
theorem paginate_models_eq_drop_take (fmt : α → β) (page : Int)
    (items : List α) (h : 1 ≤ page) :
    paginate_models fmt page items
      = ((items.map fmt).drop ((page - 1) * 10).toNat).take 10 := by
  unfold paginate_models
  exact pySlice_nonneg (items.map fmt) ((page - 1) * 10) (by omega)

/-- Whatever `playCandidates` returns was filtered against `previous`. -/
theorem playCandidates_excludes (allQ : List Question) (previous : List Nat)
    (category : Option Nat) (qs : List Question) (q : Question)
    (hc : playCandidates allQ previous category = .ok qs) (hq : q ∈ qs) :
    q.id ∉ previous := by
  unfold playCandidates at hc
  by_cases hp : previous.isEmpty
  · rw [List.isEmpty_iff.mp hp]
    simp
  · rw [if_neg hp] at hc
    cases category with
    | some c =>
        rw [Except.ok.injEq] at hc
        subst hc
        have := List.of_mem_filter hq
        rw [Bool.not_eq_true'] at this
        simpa using this
    | none =>
        rw [Except.ok.injEq] at hc
        subst hc
        have := List.of_mem_filter hq
        rw [Bool.not_eq_true'] at this
        simpa using this

/-- For `page ≥ 1`, a page whose start offset is at or past the end of the
list comes back empty. -/
theorem paginate_models_out_of_range (fmt : α → β) (page : Int)
    (items : List α) (h1 : 1 ≤ page)
    (h2 : (items.length : Int) ≤ (page - 1) * 10) :
    paginate_models fmt page items = [] := by
  rw [paginate_models_eq_drop_take fmt page items h1]
  have hlen : (items.map fmt).length ≤ ((page - 1) * 10).toNat := by
    rw [List.length_map]; omega
  rw [List.drop_eq_nil_of_le hlen]
  simp

/-! ### Claim theorems -/

/-- C1: the claim says that with a category C provided the quiz handler only
returns questions of category C, for every provided/absent excluded set.
The code's inverted truthiness branches violate this: with category 2 and no
previous questions, `play` queries all questions unfiltered and returns Q1,
whose category is 1 ≠ 2. -/
theorem play_with_category_can_return_other_category :
    play (.ok [exQ1, exQ2]) [] (some 2) 0 = .ok exQ1.format ∧
    exQ1.format.category = 1 ∧ (1 : Nat) ≠ 2 := by decide

/-- C2: the claim says the random index is drawn uniformly from
[0, |candidates|) and never equals the candidate count. The code draws
`randint(0, len(formatted_question))` with an inclusive upper bound: on the
one-candidate set {Q1} the value 1 = |candidates| is a possible draw, and
drawing it indexes one past the end (an IndexError the handler masks as
404), even though a candidate exists and is returned for draw 0. -/
theorem play_random_index_bound_inclusive_bug :
    playCandidates [exQ1, exQ2] [2] none = .ok [exQ1] ∧
    (1 : Nat) ∈ randintRange 0 1 ∧
    play (.ok [exQ1, exQ2]) [2] none 1 = .error (.httpAbort 404) ∧
    play (.ok [exQ1, exQ2]) [2] none 0 = .ok exQ1.format := by decide

/-- C3 counterexample: the claim says the empty-candidate outcome is
distinguishable from a persistence-layer fault, which takes a different
internal error path. On the concrete quiz request (category 1, excluded
{1, 3}) the candidate set is empty and the handler's outcome is exactly the
same `abort(404)` a persistence fault produces — the two paths are
indistinguishable, internally and at the boundary. -/
theorem play_empty_candidates_equals_fault_outcome :
    playCandidates [exQ1, exQ2, exQ3] [1, 3] (some 1) = .ok [] ∧
    play (.ok [exQ1, exQ2, exQ3]) [1, 3] (some 1) 0 = .error (.httpAbort 404) ∧
    play .fault [1, 3] (some 1) 0 = .error (.httpAbort 404) ∧
    runHandler (play (.ok [exQ1, exQ2, exQ3]) [1, 3] (some 1) 0)
      = runHandler (play .fault [1, 3] (some 1) 0) := by decide

/-- C3 amended: for every quiz request whose candidate set is empty after
filtering, the handler answers with the 404 error response (no crash, no
out-of-range access) — but a persistence-layer fault produces the very same
outcome through the same except-Exception handler, so the two are not
distinguishable. -/
theorem play_empty_candidates_maps_to_404 (allQ : List Question)
    (previous : List Nat) (category : Option Nat) (r : Nat)
    (h : playCandidates allQ previous category = .ok []) :
    play (.ok allQ) previous category r = .error (.httpAbort 404) ∧
    play .fault previous category r = .error (.httpAbort 404) := by
  refine ⟨?_, rfl⟩
  simp [play, h]

/-- Witness for C3's amended theorem at the concrete exhausted quiz. -/
theorem play_empty_candidates_maps_to_404_witness :
    play (.ok [exQ1, exQ2, exQ3]) [1, 3] (some 1) 0 = .error (.httpAbort 404) ∧
    play .fault [1, 3] (some 1) 0 = .error (.httpAbort 404) :=
  play_empty_candidates_maps_to_404 [exQ1, exQ2, exQ3] [1, 3] (some 1) 0 (by decide)

/-- C4: for every item sequence and every page ≥ 1 with page size 10,
`paginate_models` returns exactly `items[(page-1)*10 : (page-1)*10+10]`
(drop then take on the formatted list, preserving order), and its length is
`min 10 (max 0 (len(items) - 10*(page-1)))`. -/
theorem paginate_models_slices_pages (fmt : α → β) (page : Int)
    (items : List α) (h : 1 ≤ page) :
    paginate_models fmt page items
      = ((items.map fmt).drop ((page - 1) * 10).toNat).take 10
    ∧ (paginate_models fmt page items).length
      = min 10 (((items.length : Int) - 10 * (page - 1)).toNat) := by
  refine ⟨paginate_models_eq_drop_take fmt page items h, ?_⟩
  rw [paginate_models_eq_drop_take fmt page items h]
  rw [List.length_take, List.length_drop, List.length_map]
  have : items.length - ((page - 1) * 10).toNat
      = ((items.length : Int) - 10 * (page - 1)).toNat := by omega
  rw [this]

/-- Witness for C4: the spec's scenario — 25 questions, page 3 — yields
questions 21 through 25, five items. -/
theorem paginate_models_slices_pages_witness :
    paginate_models id 3 (List.range' 1 25) = [21, 22, 23, 24, 25] ∧
    (paginate_models id 3 (List.range' 1 25)).length = 5 := by
  have h := paginate_models_slices_pages id 3 (List.range' 1 25) (by decide)
  exact ⟨h.1.trans (by decide), h.2.trans (by decide)⟩

/-- C5: the quiz handler never returns a question whose id is in the
excluded (previous_questions) set, with or without a category filter: when
the exclusion list is non-empty both query branches filter it out, and when
it is empty there is nothing to exclude. -/
theorem play_never_returns_excluded (st : Store) (previous : List Nat)
    (category : Option Nat) (r : Nat) (fq : FormattedQuestion)
    (h : play st previous category r = .ok fq) : fq.id ∉ previous := by
  cases st with
  | fault => simp [play] at h
  | ok allQ =>
    unfold play at h
    dsimp only at h
    cases hc : playCandidates allQ previous category with
    | error e => rw [hc] at h; simp at h
    | ok qs =>
      rw [hc] at h
      dsimp only at h
      by_cases h0 : ((qs.map Question.format).length == 0) = true
      · rw [if_pos h0] at h; simp at h
      · rw [if_neg h0] at h
        cases hg : (qs.map Question.format).get? r with
        | none => rw [hg] at h; simp at h
        | some q' =>
          rw [hg, Except.ok.injEq] at h
          subst h
          have hq' : q' ∈ qs.map Question.format := List.get?_mem hg
          obtain ⟨q0, hq0, rfl⟩ := List.mem_map.mp hq'
          have hnot := playCandidates_excludes allQ previous category qs q0 hc hq0
          simpa [Question.format] using hnot

/-- Witness for C5: a successful concrete selection (previous = {2});
the returned question's id 1 is not among the excluded ids. -/
theorem play_never_returns_excluded_witness : (exQ1.format).id ∉ [2] :=
  play_never_returns_excluded (.ok [exQ1, exQ2]) [2] none 0 exQ1.format (by decide)

/-- C6 counterexample: the claim says an out-of-range page never signals an
error or failure to the caller, citing `questions_based_on_category`. With
two category-1 questions and page 2 (start 10 ≥ 2), the paginator does
return the empty sequence, but that cited handler turns it into
`abort(404)`: the caller receives the 404 failure envelope. -/
theorem category_endpoint_fails_on_out_of_range_page :
    paginate_models Question.format 2 [exQ1, exQ3] = [] ∧
    questions_based_on_category [exQ1, exQ3] 1 2 = .error (.httpAbort 404) ∧
    runHandler (questions_based_on_category [exQ1, exQ3] 1 2)
      = .errorEnvelope 404 := by decide

/-- C6 amended: for every page beyond the last page (page ≥ 1 and start
offset at or past the end), `paginate_models` itself returns an empty
sequence and is total — it never fails; but the GET
/categories/{id}/questions handler converts that empty page into a 404
error, so on that endpoint a failure does reach the caller. -/
theorem paginate_out_of_range_empty_but_endpoint_404 (fmt : α → β)
    (items : List α) (page : Int) (allQ : List Question) (cid : Nat)
    (h1 : 1 ≤ page)
    (h2 : (items.length : Int) ≤ (page - 1) * 10)
    (h3 : ((allQ.filter (fun q => q.category == cid)).length : Int)
      ≤ (page - 1) * 10) :
    paginate_models fmt page items = [] ∧
    questions_based_on_category allQ cid page = .error (.httpAbort 404) := by
  refine ⟨paginate_models_out_of_range fmt page items h1 h2, ?_⟩
  have hp := paginate_models_out_of_range Question.format page
    (allQ.filter (fun q => q.category == cid)) h1 h3
  simp [questions_based_on_category, hp]

/-- Witness for C6's amended theorem: two items, page 2. -/
theorem paginate_out_of_range_empty_but_endpoint_404_witness :
    paginate_models Question.format 2 [exQ1, exQ3] = [] ∧
    questions_based_on_category [exQ1, exQ3] 1 2 = .error (.httpAbort 404) :=
  paginate_out_of_range_empty_but_endpoint_404 Question.format [exQ1, exQ3] 2
    [exQ1, exQ3] 1 (by decide) (by decide) (by decide)

/-- C7: the claim says GET /questions succeeds whenever the store holds at
least one question. It never succeeds: building the response evaluates
`Question.query.all().count()`, a zero-argument call to `list.count`, which
raises TypeError on every request — with one question in the store as much
as with any other state — and the raw fault (no 500 handler is registered)
reaches the client. -/
theorem get_all_questions_always_faults :
    ∀ (allQ : List Question) (page : Int),
      get_all_questions allQ page = .error .pyExc ∧
      runHandler (get_all_questions allQ page) = .internalFault := by
  intro allQ page
  exact ⟨rfl, rfl⟩

/-- C8: the claim says a POST /questions payload missing a required field
gets a 400 BadRequest in the uniform envelope and no raw fault reaches the
client. The handler reads `data['answer']` (and the other keys) before any
try block: on a payload missing `answer` the KeyError propagates uncaught
and the client sees the raw internal fault, not the 400 envelope. -/
theorem add_question_missing_field_raw_fault :
    add_new_question ⟨some "What is X", none, some 1, some 1⟩ [exQ1] 5 true 1
      = .error .pyExc ∧
    runHandler
        (add_new_question ⟨some "What is X", none, some 1, some 1⟩ [exQ1] 5 true 1)
      = .internalFault ∧
    runHandler
        (add_new_question ⟨some "What is X", none, some 1, some 1⟩ [exQ1] 5 true 1)
      ≠ .errorEnvelope 400 := by decide

/-- C9: the claim (the spec's corrected contract) says search collects every
category's label before returning. The source's `return` sits inside the
category loop: with matching question "Title of X" for term "title" and the
two-category store {Science, Art}, the response carries only ["Science"],
not the full label list ["Science", "Art"]. -/
theorem search_returns_only_first_category_label :
    search_for_question [exQT] [exCatSci, exCatArt] "title"
      = .ok ⟨[exQT.format], 1, ["Science"]⟩ ∧
    ([exCatSci, exCatArt].map Category.type) = ["Science", "Art"] ∧
    (["Science"] : List String) ≠ ["Science", "Art"] := by decide

/-- C10: below the spec's page ≥ 1 precondition `paginate_models` does not
fail but follows Python slice semantics: page 0 always yields the empty
list (the slice is l[-10:0]), while page -1 on 25 items slices l[-20:-10],
i.e. items 6 through 15 counted in the list — elements located relative to
the end of the list, and not the first page. -/
theorem paginate_nonpositive_page_python_slice :
    (∀ (l : List Nat), paginate_models id 0 l = []) ∧
    paginate_models id (-1) (List.range' 1 25) = List.range' 6 10 ∧
    paginate_models id (-1) (List.range' 1 25)
      ≠ paginate_models id 1 (List.range' 1 25) := by
  refine ⟨?_, by decide, by decide⟩
  intro l
  unfold paginate_models pySlice pySliceIndex
  norm_num
